import Mathlib

/-!
Verification of the device-descriptor aggregation pipeline of `fwupd.py`
(fwupd-hybris): a shallow embedding of `extract_prop`, `set_props` and the
`GetDevices` accessor, with the external world (filesystem, telephony bus,
subprocess output) modelled as an explicit environment.

Python exceptions are modelled with `Except PyError`; a Python value that may
be an unassigned local is modelled with `Option` (reading `none` raises
`PyError.unboundLocal`, mirroring `UnboundLocalError`).
-/

namespace Fwupd

/-! ### Python string primitives (ASCII-faithful models) -/

/-- Python `s.split(sep)` for a one-character separator: split on every
occurrence; `"".split(sep) == ['']`. -/
def pySplitCharList (sep : Char) : List Char → List (List Char)
  | [] => [[]]
  | c :: t =>
    if c = sep then [] :: pySplitCharList sep t
    else
      match pySplitCharList sep t with
      | h :: r => (c :: h) :: r
      | [] => [[c]]

/-- Python `s.split(sep)` on strings. -/
def pySplitOn (sep : Char) (s : String) : List String :=
  (pySplitCharList sep s.toList).map String.mk

/-- The lines produced by iterating over an open Python file, with the
trailing newline of each line dropped (no claim depends on it: every use
either trims the line or searches it for a newline-free substring).
Python yields no final empty line for text ending in `\n`. -/
def pyLines (s : String) : List String :=
  let parts := pySplitOn '\n' s
  if parts.getLast? = some "" then parts.dropLast else parts

/-- Python `s.startswith(pre)`. -/
def pyStartsWith (s pre : String) : Bool :=
  pre.toList.isPrefixOf s.toList

/-- Substring occurrence on char lists (Python `needle in hay`). -/
def listHasInfix (needle : List Char) : List Char → Bool
  | [] => needle.isEmpty
  | c :: t => needle.isPrefixOf (c :: t) || listHasInfix needle t

/-- Python `sub in s` for strings. -/
def pyContains (s sub : String) : Bool :=
  listHasInfix sub.toList s.toList

/-- Drop characters satisfying `p` from both ends. -/
def stripBy (p : Char → Bool) (s : List Char) : List Char :=
  ((s.dropWhile p).reverse.dropWhile p).reverse

/-- Python `s.strip()` (whitespace at both ends). -/
def pyStrip (s : String) : String :=
  String.mk (stripBy Char.isWhitespace s.toList)

/-- Python `s.strip('"')`. -/
def pyStripQuotes (s : String) : String :=
  String.mk (stripBy (fun c => c = '"') s.toList)

/-- Python `s.upper()` (ASCII). -/
def pyUpper (s : String) : String :=
  String.mk (s.toList.map Char.toUpper)

/-- Python `s.capitalize()` (ASCII): first character upper-cased, the rest
lower-cased. -/
def pyCapitalize (s : String) : String :=
  match s.toList with
  | [] => ""
  | c :: t => String.mk (c.toUpper :: t.map Char.toLower)

/-- Truthiness of Python `s.strip()`: `s` has a non-whitespace character. -/
def hasNonWS (s : String) : Bool :=
  s.toList.any (fun c => !c.isWhitespace)

/-! ### Errors and the external environment -/

/-- The Python exceptions the modelled code can raise: a file error
(`FileNotFoundError` / `IOError` from `open`/`read`), an `IndexError`
(list subscript out of range), and an `UnboundLocalError` (reading a local
variable that was never assigned). -/
inductive PyError where
  | fileError
  | indexError
  | unboundLocal
deriving DecidableEq, Repr

/-- The filesystem as seen through `os.path.exists` and `open(...).read()`;
`read` returns `.error` when opening or reading the path raises. -/
structure FS where
  pathExists : String → Bool
  read : String → Except Unit String

/-! ### extract_prop (fwupd.py lines 344-365) -/

/-- The fixed candidate property-file paths of `extract_prop`. -/
def prop_files : List String :=
  [ "/var/lib/lxc/android/rootfs/vendor/build.prop",
    "/android/vendor/build.prop",
    "/vendor/build.prop",
    "/var/lib/lxc/android/rootfs/odm/etc/build.prop",
    "/android/odm/etc/build.prop",
    "/odm/etc/build.prop",
    "/vendor/odm_dlkm/etc/build.prop" ]

/-- The line scan of `extract_prop` over the opened file: the first line
starting with `prop` is answered with `line.split('=')[1].strip()` — the
second field of the `'='`-split (an `IndexError` if the line has no `'='`);
with no matching line the function falls through to `return ''`. -/
def extractFromContent (prop content : String) : Except PyError String :=
  match (pyLines content).find? (fun line => pyStartsWith line prop) with
  | none => Except.ok ""
  | some line =>
    match pySplitOn '=' line with
    | _ :: v :: _ => Except.ok (pyStrip v)
    | _ => Except.error PyError.indexError

/-- `extract_prop`: the loop leaves `file` at the first existing candidate,
or — when none exists — at the last list element (the loop variable after an
un-broken `for`), which `open` then fails on. -/
def extract_prop (fs : FS) (prop : String) : Except PyError String :=
  let file := (prop_files.find? fs.pathExists).getD (prop_files.getLastD "")
  match fs.read file with
  | Except.error _ => Except.error PyError.fileError
  | Except.ok content => extractFromContent prop content

deriving instance DecidableEq for Except

/-! ### The Device descriptor -/

/-- One `a{sv}` device record as built by `set_props`: the eight keys
`DeviceId`, `Name`, `Vendor`, `Version`, `Plugin`, `Protocol`, `Flags`,
`Serial` (every field present by construction; `Flags` is the `t` variant,
a number). -/
structure Device where
  deviceId : String
  name : String
  vendor : String
  version : String
  plugin : String
  protocol : String
  flags : Nat
  serial : String
deriving DecidableEq, Repr

/-! ### Bootloader source (fwupd.py lines 56-82) -/

/-- `parts[1].strip().strip('"')`. -/
def stripQV (s : String) : String :=
  pyStripQuotes (pyStrip s)

/-- One iteration of the `/proc/bootconfig` loop: each of the two `in`-tests
updates its variable when the line splits on `'='` into exactly two parts.
The accumulator components model the locals `bootloader` and
`bootloader_serialno`; `none` = still unassigned. -/
def bootconfigScanLine (acc : Option String × Option String) (line : String) :
    Option String × Option String :=
  let a1 :=
    if pyContains line "androidboot.bootloader" then
      match pySplitOn '=' line with
      | [_, v] => (some (stripQV v), acc.2)
      | _ => acc
    else acc
  if pyContains line "androidboot.serialno" then
    match pySplitOn '=' line with
    | [_, v] => (a1.1, some (stripQV v))
    | _ => a1
  else a1

/-- The whole `/proc/bootconfig` loop, starting from both locals unassigned. -/
def bootconfigScan (content : String) : Option String × Option String :=
  (pyLines content).foldl bootconfigScanLine (none, none)

/-- The `arr_bootloader` record (fwupd.py lines 71-80). -/
def mkBootDevice (bootloader vendor serialno : String) : Device :=
  { deviceId := "1", name := bootloader,
    vendor := if vendor ≠ "" then pyCapitalize vendor ++ " Bootloader" else "",
    version := "1", plugin := "hybris", protocol := "hybris", flags := 2,
    serial := if serialno ≠ "" then serialno else "" }

/-- `if bootloader:` and the construction/append of `arr_bootloader`, given
the two locals (`none` = unassigned, so reading it raises
`UnboundLocalError`). The guard reads `bootloader`; only a truthy name then
reads `bootloader_serialno` inside the record literal. -/
def bootEmit (pair : Option String × Option String) (vendor : String) :
    Except PyError (List Device) :=
  match pair.1 with
  | none => Except.error PyError.unboundLocal
  | some bl =>
    if bl ≠ "" then
      match pair.2 with
      | none => Except.error PyError.unboundLocal
      | some sn => Except.ok [mkBootDevice bl vendor sn]
    else Except.ok []

/-- The bootloader block: scan `/proc/bootconfig`; if opening it raised,
the `except` branch assigns `bootloader = extract_prop('ro.bootloader')`
(an exception from `extract_prop` propagates) and leaves
`bootloader_serialno` unassigned. -/
def bootBlock (fs : FS) (vendor : String) : Except PyError (List Device) :=
  match fs.read "/proc/bootconfig" with
  | Except.ok content => bootEmit (bootconfigScan content) vendor
  | Except.error _ =>
    match extract_prop fs "ro.bootloader" with
    | Except.error e => Except.error e
    | Except.ok b => bootEmit (some b, none) vendor

/-! ### Modem source (fwupd.py lines 84-112) -/

/-- One ofono modem record: the three property keys the loop looks up, each
present or absent in the record's property dictionary. -/
structure ModemRecord where
  revision : Option String
  serial : Option String
  swVersion : Option String
deriving DecidableEq, Repr

/-- One iteration of the `for path, properties in modems:` loop: each
field's local is overwritten whenever the key is present in the current
record. Components: (`modem_rev`, `modem_serial`, `modem_ver`). -/
def modemScanStep (acc : Option String × Option String × Option String)
    (rec : ModemRecord) : Option String × Option String × Option String :=
  ((match rec.revision with | some x => some x | none => acc.1),
   (match rec.serial with | some x => some x | none => acc.2.1),
   (match rec.swVersion with | some x => some x | none => acc.2.2))

/-- The whole modem-record loop, from all three locals unassigned: the last
record bearing a key wins; a key absent from every record leaves its local
unassigned. -/
def modemScan (records : List ModemRecord) :
    Option String × Option String × Option String :=
  records.foldl modemScanStep (none, none, none)

/-- The `arr_modem` record (fwupd.py lines 101-110). -/
def mkModemDevice (rev vendor ver serialno : String) : Device :=
  { deviceId := "1", name := rev,
    vendor := if vendor ≠ "" then pyCapitalize vendor ++ " Modem" else "",
    version := if ver ≠ "" then ver else "1",
    plugin := "hybris", protocol := "hybris", flags := 2,
    serial := if serialno ≠ "" then serialno else "" }

/-- The modem block. A failed bus connection or `GetModems` call is caught
(`ofono = False`: no device). On success `ofono = True` and the record
literal reads `modem_rev` (for `Name`), then `modem_ver` (for `Version`),
then `modem_serial` (for `Serial`); reading one that no record assigned
raises `UnboundLocalError`. -/
def modemBlock (modems : Except Unit (List ModemRecord)) (vendor : String) :
    Except PyError (List Device) :=
  match modems with
  | Except.error _ => Except.ok []
  | Except.ok records =>
    match modemScan records with
    | (some rev, sser, sver) =>
      match sver with
      | some ver =>
        match sser with
        | some ser => Except.ok [mkModemDevice rev vendor ver ser]
        | none => Except.error PyError.unboundLocal
      | none => Except.error PyError.unboundLocal
    | (none, _, _) => Except.error PyError.unboundLocal

/-! ### Sensor source (fwupd.py lines 114-145) -/

/-- The fixed ABI-version list `sensor_hal`. -/
def sensor_hal : List String := ["1.0", "2.0", "2.1"]

/-- The `binder-call` command string built for one ABI version. -/
def mkCommand (v : String) : String :=
  "binder-call -d /dev/hwbinder android.hardware.sensors@" ++ v ++
    "::ISensors/default 1 reply i32 \"[ \x7b i32 i32 hstr hstr i32 \x7d ]\""

/-- The probe loop over `sensor_hal`: run the command for each version in
order, keep its output in `sensor_out`, and `break` at the first output
whose `strip()` is truthy. Returns the final `sensor_out` (the last
command's output when no version succeeded) and the list of versions whose
command was actually invoked. `prev` threads the prior value of
`sensor_out` (initially `""`). -/
def probeSensors (popen : String → String) :
    List String → String → String × List String
  | [], prev => (prev, [])
  | v :: rest, _ =>
    let o := popen (mkCommand v)
    if hasNonWS o then (o, [v])
    else
      let (fin, vs) := probeSensors popen rest o
      (fin, v :: vs)

/-- One match of the sensor-output pattern: the four capture groups of
`(\d+) \d+ "([^"]+)"H "([^"]+)"H (\d+)` inside braces. -/
structure SMatch where
  sid : String
  name : String
  vendor : String
  ver : String
deriving DecidableEq, Repr

/-- Consume an exact literal character sequence. -/
def dropLit : List Char → List Char → Option (List Char)
  | [], s => some s
  | _ :: _, [] => none
  | c :: cs, d :: ds => if c = d then dropLit cs ds else none

/-- Consume one-or-more characters satisfying `p` (the regex `p+`; maximal
munch, exact here because each `+` in the pattern is followed by a literal
its character class excludes, so the engine never backtracks into it). -/
def many1 (p : Char → Bool) (s : List Char) : Option (List Char × List Char) :=
  match s.span p with
  | ([], _) => none
  | (tk, rest) => some (tk, rest)

/-- Try to match the sensor-record pattern
`\x7b (\d+) \d+ "([^"]+)"H "([^"]+)"H (\d+) \x7d` (with a space after the
opening and before the closing brace) at the head of `s`; on success return
the captures and the rest of the input. -/
def matchAt (s : List Char) : Option (SMatch × List Char) := do
  let s ← dropLit ['\x7b', ' '] s
  let (idc, s) ← many1 Char.isDigit s
  let s ← dropLit [' '] s
  let (_, s) ← many1 Char.isDigit s
  let s ← dropLit [' ', '"'] s
  let (nm, s) ← many1 (fun c => c != '"') s
  let s ← dropLit ['"', 'H', ' ', '"'] s
  let (vd, s) ← many1 (fun c => c != '"') s
  let s ← dropLit ['"', 'H', ' '] s
  let (vr, s) ← many1 Char.isDigit s
  let s ← dropLit [' ', '\x7d'] s
  some (⟨String.mk idc, String.mk nm, String.mk vd, String.mk vr⟩, s)

/-- `re.findall` for this pattern: scan left to right, at each position try
a match; on success emit it and resume after its end (non-overlapping),
otherwise advance one character. Fuel bounds the recursion; `length s` is
enough because every step consumes at least one character. -/
def findallAux : Nat → List Char → List SMatch
  | 0, _ => []
  | _, [] => []
  | fuel + 1, c :: t =>
    match matchAt (c :: t) with
    | some (m, rest) => m :: findallAux fuel rest
    | none => findallAux fuel t

/-- `pattern.findall(sensor_out)`. -/
def findall (out : String) : List SMatch :=
  findallAux out.toList.length out.toList

/-- The `arr_sensor` record (fwupd.py lines 134-143): the numeric sensor id
goes to `Serial`, `DeviceId` is the constant `"1"`. -/
def mkSensorDevice (m : SMatch) : Device :=
  { deviceId := "1", name := m.name,
    vendor := if m.vendor ≠ "" then m.vendor else "",
    version := if m.ver ≠ "" then m.ver else "1",
    plugin := "hybris", protocol := "hybris", flags := 2,
    serial := if m.sid ≠ "" then m.sid else "" }

/-- The sensor block: probe, then if the final output strips non-empty,
parse it and append one device per match. -/
def sensorBlock (popen : String → String) : List Device :=
  let (out, _) := probeSensors popen sensor_hal ""
  if hasNonWS out then (findall out).map mkSensorDevice else []

/-! ### set_props and the facade accessors (fwupd.py lines 41-145, 195-197) -/

/-- The external world `set_props` consults: the filesystem, the result of
the ofono `GetModems` query (`.error` = bus connection or call raised), and
the output of `os.popen(cmd).read()` per command string. -/
structure Env where
  fs : FS
  modems : Except Unit (List ModemRecord)
  popen : String → String

/-- The state `set_props` leaves in `self.props`: the three host strings
and the `Devices` list (initially empty, appended to in source order). -/
structure SPResult where
  hostVendor : String
  hostProduct : String
  hostMachineId : String
  devices : List Device
deriving DecidableEq, Repr

/-- `set_props`, in source order: the two `extract_prop` calls (an
exception from either propagates), the machine-id read (guarded by
`os.path.exists`, the unguarded `open` may still raise), the bootloader
block, the modem block, the sensor block. -/
def set_props (env : Env) : Except PyError SPResult :=
  match extract_prop env.fs "ro.product.vendor.manufacturer" with
  | Except.error e => Except.error e
  | Except.ok vendor =>
    match extract_prop env.fs "ro.product.vendor.name" with
    | Except.error e => Except.error e
    | Except.ok codename =>
      match (if env.fs.pathExists "/etc/machine-id"
             then env.fs.read "/etc/machine-id" else Except.ok "") with
      | Except.error _ => Except.error PyError.fileError
      | Except.ok machineId =>
        match bootBlock env.fs vendor with
        | Except.error e => Except.error e
        | Except.ok bootDevs =>
          match modemBlock env.modems vendor with
          | Except.error e => Except.error e
          | Except.ok modemDevs =>
            Except.ok
              { hostVendor := if vendor ≠ "" then pyUpper vendor else "",
                hostProduct := if codename ≠ "" then pyUpper codename else "",
                hostMachineId := machineId,
                devices := bootDevs ++ modemDevs ++ sensorBlock env.popen }

/-- The `GetDevices` method: returns the cached `Devices` list. -/
def GetDevices (r : SPResult) : List Device := r.devices

/-- The `HostVendor` property accessor. -/
def HostVendor (r : SPResult) : String := r.hostVendor

/-- The `HostProduct` property accessor. -/
def HostProduct (r : SPResult) : String := r.hostProduct

/-! ### Auxiliary notions used to state properties -/

/-- Sequential overwrite of an optional local: the new value wins when
present, otherwise the old one stands. -/
def ocomb (old new : Option String) : Option String :=
  match new with
  | some x => some x
  | none => old

/-- The value a repeatedly-overwritten local ends with: the field of the
last record bearing it, `none` when no record bears it. -/
def lastField (f : ModemRecord → Option String) : List ModemRecord → Option String
  | [] => none
  | r :: rs =>
    match lastField f rs with
    | some v => some v
    | none => f r

/-- The constant fields every emitted descriptor must carry. -/
def devConst (d : Device) : Prop :=
  d.plugin = "hybris" ∧ d.protocol = "hybris" ∧ d.flags = 2

/-! ### Concrete environments -/

/-- A filesystem with no file at all. -/
def fsNone : FS := ⟨fun _ => false, fun _ => Except.error ()⟩

/-- A filesystem whose only file is `/vendor/build.prop`, holding one
unrelated property. -/
def fsKeyAbsent : FS :=
  ⟨fun p => p == "/vendor/build.prop",
   fun p => if p == "/vendor/build.prop" then Except.ok "other=1\n"
            else Except.error ()⟩

/-- The end-to-end scenario's property file. -/
def propC2 : String :=
  "ro.product.vendor.manufacturer=acme\nro.product.vendor.name=widget\n"

/-- The end-to-end scenario's boot-config blob. -/
def bootcfgC2 : String :=
  "androidboot.bootloader=\"abl\"\nandroidboot.serialno=\"123\"\n"

/-- The end-to-end scenario's filesystem: the property file at
`/vendor/build.prop`, a readable `/proc/bootconfig`, no machine-id file. -/
def fsC2 : FS :=
  ⟨fun p => p == "/vendor/build.prop",
   fun p =>
     if p == "/vendor/build.prop" then Except.ok propC2
     else if p == "/proc/bootconfig" then Except.ok bootcfgC2
     else Except.error ()⟩

/-- End-to-end scenario: telephony service absent, sensor probes all empty. -/
def envC2 : Env := ⟨fsC2, Except.error (), fun _ => ""⟩

/-- The single device the end-to-end scenario should produce. -/
def devC2 : Device :=
  ⟨"1", "abl", "Acme Bootloader", "1", "hybris", "hybris", 2, "123"⟩

/-- The state the end-to-end scenario should leave. -/
def spC2 : SPResult := ⟨"ACME", "WIDGET", "", [devC2]⟩

/-- A readable boot-config text with a serial marker but no bootloader
marker. -/
def bootcfgSerialOnly : String := "androidboot.serialno=\"123\"\n"

/-- Like `fsC2` but with the serial-only boot config. -/
def fsC3 : FS :=
  ⟨fun p => p == "/vendor/build.prop",
   fun p =>
     if p == "/vendor/build.prop" then Except.ok propC2
     else if p == "/proc/bootconfig" then Except.ok bootcfgSerialOnly
     else Except.error ()⟩

/-- Environment for the serial-only boot config (telephony absent, sensors
empty). -/
def envC3 : Env := ⟨fsC3, Except.error (), fun _ => ""⟩

/-- Environment where the telephony query succeeds with an empty modem
record list. -/
def envC4 : Env := ⟨fsC2, Except.ok [], fun _ => ""⟩

/-- Environment where the telephony query succeeds with one record bearing
none of the three queried fields. -/
def envC5 : Env := ⟨fsC2, Except.ok [⟨none, none, none⟩], fun _ => ""⟩

/-- The well-formed single-record sensor text of the spec. -/
def sensorTextC6 : String := "\x7b 3 0 \"Accel\"H \"Bosch\"H 2 \x7d"

/-- A subprocess that answers every probe with `sensorTextC6`. -/
def popenC6 : String → String := fun _ => sensorTextC6

/-- A different single-record sensor text. -/
def sensorTextC7 : String := "\x7b 7 0 \"Gyro\"H \"Invn\"H 5 \x7d"

/-- A subprocess yielding empty output for ABI 1.0 and a record for 2.0. -/
def popenC7 : String → String :=
  fun c => if c == mkCommand "2.0" then sensorTextC7 else ""

/-- A subprocess yielding empty output for every probe. -/
def popenEmpty : String → String := fun _ => ""

/-- Sensor text with a record embedded in surrounding noise. -/
def sensorTextC10 : String := "xx \x7b 12 0 \"Mag\"H \"AKM\"H 4 \x7d yy"

/-- A property file whose value itself contains `=`. -/
def fsC9 : FS :=
  ⟨fun p => p == "/vendor/build.prop",
   fun p => if p == "/vendor/build.prop" then Except.ok "mykey=a=b\n"
            else Except.error ()⟩

/-! ## Helper lemmas -/

theorem ocomb_assoc (a b c : Option String) :
    ocomb (ocomb a b) c = ocomb a (ocomb b c) := by
  cases c <;> cases b <;> rfl

theorem ocomb_none_left (x : Option String) : ocomb none x = x := by
  cases x <;> rfl

theorem lastField_cons (f : ModemRecord → Option String) (r : ModemRecord)
    (rs : List ModemRecord) :
    lastField f (r :: rs) = ocomb (f r) (lastField f rs) := by
  cases h : lastField f rs <;> simp [lastField, h, ocomb]

theorem modemScanStep_eq (acc : Option String × Option String × Option String)
    (rec : ModemRecord) :
    modemScanStep acc rec =
      (ocomb acc.1 rec.revision, ocomb acc.2.1 rec.serial,
       ocomb acc.2.2 rec.swVersion) := by
  cases hr : rec.revision <;> cases hs : rec.serial <;> cases hv : rec.swVersion <;>
    simp [modemScanStep, hr, hs, hv, ocomb]

theorem foldl_modemScanStep (records : List ModemRecord) :
    ∀ acc, records.foldl modemScanStep acc =
      (ocomb acc.1 (lastField ModemRecord.revision records),
       ocomb acc.2.1 (lastField ModemRecord.serial records),
       ocomb acc.2.2 (lastField ModemRecord.swVersion records)) := by
  induction records with
  | nil => intro acc; simp [lastField, ocomb]
  | cons r rs ih =>
    intro acc
    rw [List.foldl_cons, ih, modemScanStep_eq, lastField_cons, lastField_cons,
      lastField_cons]
    simp [ocomb_assoc]

/-- The modem loop leaves each local at the field of the last record
bearing it. -/
theorem modemScan_eq_lastField (records : List ModemRecord) :
    modemScan records =
      (lastField ModemRecord.revision records,
       lastField ModemRecord.serial records,
       lastField ModemRecord.swVersion records) := by
  rw [modemScan, foldl_modemScanStep]
  simp [ocomb_none_left]

theorem mkBoot_const (b v s : String) : devConst (mkBootDevice b v s) :=
  ⟨rfl, rfl, rfl⟩

theorem mkModem_const (r v w s : String) : devConst (mkModemDevice r v w s) :=
  ⟨rfl, rfl, rfl⟩

theorem mkSensor_const (m : SMatch) : devConst (mkSensorDevice m) :=
  ⟨rfl, rfl, rfl⟩

theorem bootEmit_mem {pair : Option String × Option String} {vendor : String}
    {devs : List Device} (h : bootEmit pair vendor = Except.ok devs)
    {d : Device} (hd : d ∈ devs) : devConst d := by
  obtain ⟨bl?, sn?⟩ := pair
  cases bl? with
  | none => exact absurd h (by simp [bootEmit])
  | some bl =>
    by_cases hbl : bl = ""
    · simp [bootEmit, hbl] at h
      subst h
      simp at hd
    · cases sn? with
      | none => simp [bootEmit, hbl] at h
      | some sn =>
        simp [bootEmit, hbl] at h
        subst h
        simp at hd
        subst hd
        exact mkBoot_const _ _ _

theorem bootBlock_mem {fs : FS} {vendor : String} {devs : List Device}
    (h : bootBlock fs vendor = Except.ok devs) {d : Device} (hd : d ∈ devs) :
    devConst d := by
  rw [bootBlock] at h
  split at h
  · exact bootEmit_mem h hd
  · split at h
    · exact absurd h (by simp)
    · exact bootEmit_mem h hd

theorem modemBlock_mem {modems : Except Unit (List ModemRecord)} {vendor : String}
    {devs : List Device} (h : modemBlock modems vendor = Except.ok devs)
    {d : Device} (hd : d ∈ devs) : devConst d := by
  rw [modemBlock.eq_def] at h
  split at h
  · injection h with h
    subst h
    simp at hd
  · split at h
    · split at h
      · split at h
        · injection h with h
          subst h
          simp at hd
          subst hd
          exact mkModem_const _ _ _ _
        · exact absurd h (by simp)
      · exact absurd h (by simp)
    · exact absurd h (by simp)

theorem sensorBlock_mem {popen : String → String} {d : Device}
    (hd : d ∈ sensorBlock popen) : devConst d := by
  rw [sensorBlock] at hd
  split at hd
  split at hd
  · rcases List.mem_map.mp hd with ⟨m, _, rfl⟩
    exact mkSensor_const m
  · simp at hd

theorem all_takeWhile (p : Char → Bool) (l : List Char) :
    (l.takeWhile p).all p = true := by
  induction l with
  | nil => rfl
  | cons c t ih =>
    by_cases hc : p c
    · simp [List.takeWhile_cons, hc, ih]
    · simp [List.takeWhile_cons, hc]

/-- A successful `many1` returns a non-empty token all of whose characters
satisfy the class. -/
theorem many1_spec {p : Char → Bool} {s tk rest : List Char}
    (h : many1 p s = some (tk, rest)) : tk ≠ [] ∧ tk.all p = true := by
  rw [many1, List.span_eq_take_drop] at h
  cases htw : s.takeWhile p with
  | nil => rw [htw] at h; simp at h
  | cons a as =>
    rw [htw] at h
    injection h with h
    injection h with h1 h2
    constructor
    · rw [← h1]; simp
    · rw [← h1, ← htw]
      exact all_takeWhile p s

/-- The version capture of any successful record match is a non-empty
digit string. -/
theorem matchAt_ver {s : List Char} {m : SMatch} {rest : List Char}
    (h : matchAt s = some (m, rest)) :
    m.ver ≠ "" ∧ m.ver.toList.all Char.isDigit = true := by
  rw [matchAt] at h
  simp only [Option.bind_eq_bind, Option.bind_eq_some] at h
  obtain ⟨s1, _, ⟨idc, s2⟩, _, s3, _, ⟨d2, s4⟩, _, s5, _, ⟨nm, s6⟩, _, s7, _,
    ⟨vd, s8⟩, _, s9, _, ⟨vr, s10⟩, hvr, s11, _, hfin⟩ := h
  injection hfin with hfin
  injection hfin with h1 h2
  obtain ⟨hne, hall⟩ := many1_spec hvr
  subst h1
  constructor
  · intro hc
    apply hne
    have := congrArg String.toList hc
    simpa using this
  · simpa using hall

/-- Every match `findall` ever emits has a non-empty digit version. -/
theorem findallAux_ver (fuel : Nat) :
    ∀ (s : List Char) (m : SMatch), m ∈ findallAux fuel s →
      m.ver ≠ "" ∧ m.ver.toList.all Char.isDigit = true := by
  induction fuel with
  | zero => intro s m hm; simp [findallAux] at hm
  | succ n ih =>
    intro s m hm
    cases s with
    | nil => simp [findallAux] at hm
    | cons c t =>
      rw [findallAux] at hm
      cases hma : matchAt (c :: t) with
      | none =>
        rw [hma] at hm
        exact ih t m hm
      | some pr =>
        obtain ⟨m', rest⟩ := pr
        rw [hma] at hm
        rcases List.mem_cons.mp hm with rfl | hmem
        · exact matchAt_ver hma
        · exact ih rest m hmem

/-! ## The claims -/

/-- C1, counterexample: in a filesystem where no candidate property file
exists (and so opening the fall-through path fails), `extract_prop` raises
the file error instead of returning the empty string, refuting the claim
that every failure path degrades to the empty string. -/
theorem extract_prop_no_candidate_raises :
    extract_prop fsNone "ro.product.vendor.manufacturer" =
      Except.error PyError.fileError ∧
    extract_prop fsNone "ro.product.vendor.manufacturer" ≠ Except.ok "" := by
  decide

/-- C1, amended: when no candidate path exists, `extract_prop` opens the
last candidate path and the resulting file error propagates (it raises);
only the key-absent failure path degrades to the empty string (shown here
for the first existing candidate file reading successfully with no line
starting with the key). -/
theorem extract_prop_failure_paths :
    (∀ (fs : FS) (prop : String),
        (∀ p ∈ prop_files, fs.pathExists p = false) →
        fs.read "/vendor/odm_dlkm/etc/build.prop" = Except.error () →
        extract_prop fs prop = Except.error PyError.fileError) ∧
    (∀ (fs : FS) (prop file content : String),
        prop_files.find? fs.pathExists = some file →
        fs.read file = Except.ok content →
        (pyLines content).find? (fun l => pyStartsWith l prop) = none →
        extract_prop fs prop = Except.ok "") := by
  constructor
  · intro fs prop hall hread
    have hnone : prop_files.find? fs.pathExists = none := by
      rw [List.find?_eq_none]
      intro p hp
      simp [hall p hp]
    have hlast : prop_files.getLastD "" = "/vendor/odm_dlkm/etc/build.prop" := by
      decide
    simp only [extract_prop, hnone, Option.getD_none, hlast, hread]
  · intro fs prop file content hfind hread hnoline
    simp only [extract_prop, hfind, Option.getD_some, hread, extractFromContent,
      hnoline]

/-- Witness for the amended C1 at concrete filesystems. -/
theorem extract_prop_failure_paths_witness :
    extract_prop fsNone "ro.product.vendor.manufacturer" =
      Except.error PyError.fileError ∧
    extract_prop fsKeyAbsent "ro.product.vendor.manufacturer" = Except.ok "" :=
  ⟨extract_prop_failure_paths.1 fsNone "ro.product.vendor.manufacturer"
     (by decide) (by decide),
   extract_prop_failure_paths.2 fsKeyAbsent "ro.product.vendor.manufacturer"
     "/vendor/build.prop" "other=1\n" (by decide) (by decide) (by decide)⟩

/-- C2: in the end-to-end scenario (property file with vendor `acme` and
product `widget`, boot config with bootloader `abl` and serial `123`,
telephony service absent, all sensor probes empty), `set_props` succeeds,
`GetDevices` returns exactly one Device with id "1", name "abl", vendor
"Acme Bootloader", version "1", serial "123", flags 2, and the HostVendor
and HostProduct properties read "ACME" and "WIDGET". -/
theorem end_to_end_single_bootloader_device :
    set_props envC2 = Except.ok spC2 ∧
    GetDevices spC2 = [devC2] ∧
    devC2 = ⟨"1", "abl", "Acme Bootloader", "1", "hybris", "hybris", 2, "123"⟩ ∧
    HostVendor spC2 = "ACME" ∧ HostProduct spC2 = "WIDGET" := by
  decide

/-- C3: on a readable boot-config text with a bootloader-serial marker but
no bootloader-name marker, the scan leaves the bootloader-name local
unassigned (while capturing the serial), so the `if bootloader:` guard
reads an unassigned local and `set_props` raises `UnboundLocalError`
instead of cleanly suppressing the bootloader Device. -/
theorem serial_only_bootconfig_unbound_local :
    bootconfigScan bootcfgSerialOnly = (none, some "123") ∧
    bootBlock fsC3 "acme" = Except.error PyError.unboundLocal ∧
    set_props envC3 = Except.error PyError.unboundLocal := by
  decide

/-- C4: a failed telephony connection or call is indeed absorbed (no modem
device, no error), but a telephony query that succeeds with an empty modem
record list makes `set_props` raise `UnboundLocalError` (the modem record
literal reads locals no loop iteration assigned), so the device list is
lost and the sensor source never runs. -/
theorem modem_empty_reply_unbound_local :
    modemBlock (Except.error ()) "acme" = Except.ok [] ∧
    modemBlock (Except.ok []) "acme" = Except.error PyError.unboundLocal ∧
    set_props envC4 = Except.error PyError.unboundLocal := by
  decide

/-- C5, counterexample: the telephony query succeeds with one modem record
bearing none of the three queried fields; the claim then promises exactly
one modem Device, but the code raises `UnboundLocalError`. -/
theorem modem_fieldless_record_counterexample :
    modemBlock (Except.ok [⟨none, none, none⟩]) "acme" =
      Except.error PyError.unboundLocal ∧
    set_props envC5 = Except.error PyError.unboundLocal := by
  decide

/-- C5, amended: on a successful telephony query each per-field local ends
at the value of the last record bearing that field (not the last record
outright); exactly one modem Device is emitted iff each of revision, serial
and software-version is present in at least one record (otherwise
`UnboundLocalError` is raised), and the emitted vendor is
"(capitalized device-vendor) Modem" when the vendor is known, else empty. -/
theorem modem_emission (records : List ModemRecord) (vendor : String) :
    modemScan records =
      (lastField ModemRecord.revision records,
       lastField ModemRecord.serial records,
       lastField ModemRecord.swVersion records) ∧
    (∀ rev ser ver,
        lastField ModemRecord.revision records = some rev →
        lastField ModemRecord.serial records = some ser →
        lastField ModemRecord.swVersion records = some ver →
        modemBlock (Except.ok records) vendor =
          Except.ok [mkModemDevice rev vendor ver ser] ∧
        (mkModemDevice rev vendor ver ser).vendor =
          (if vendor ≠ "" then pyCapitalize vendor ++ " Modem" else "")) ∧
    ((lastField ModemRecord.revision records = none ∨
      lastField ModemRecord.serial records = none ∨
      lastField ModemRecord.swVersion records = none) →
        modemBlock (Except.ok records) vendor =
          Except.error PyError.unboundLocal) := by
  refine ⟨modemScan_eq_lastField records, ?_, ?_⟩
  · intro rev ser ver h1 h2 h3
    exact ⟨by simp [modemBlock, modemScan_eq_lastField records, h1, h2, h3], rfl⟩
  · intro h
    rcases h with h | h | h
    · simp [modemBlock, modemScan_eq_lastField records, h]
    · cases hrev : lastField ModemRecord.revision records <;>
        cases hsw : lastField ModemRecord.swVersion records <;>
        simp [modemBlock, modemScan_eq_lastField records, hrev, hsw, h]
    · cases hrev : lastField ModemRecord.revision records <;>
        cases hser : lastField ModemRecord.serial records <;>
        simp [modemBlock, modemScan_eq_lastField records, hrev, hser, h]

/-- Witness for the amended C5: two records where the last record wins per
present field (revision from the second, serial from the first), and a
record set missing the serial field everywhere, which raises. -/
theorem modem_emission_witness :
    modemBlock (Except.ok [⟨some "r1", some "s1", none⟩,
                           ⟨some "r2", none, some "v2"⟩]) "acme" =
      Except.ok [mkModemDevice "r2" "acme" "v2" "s1"] ∧
    modemBlock (Except.ok [⟨some "r1", none, some "v1"⟩]) "acme" =
      Except.error PyError.unboundLocal := by
  constructor
  · exact ((modem_emission [⟨some "r1", some "s1", none⟩,
      ⟨some "r2", none, some "v2"⟩] "acme").2.1 "r2" "s1" "v2"
      (by decide) (by decide) (by decide)).1
  · exact (modem_emission [⟨some "r1", none, some "v1"⟩] "acme").2.2
      (Or.inr (Or.inl (by decide)))

/-- C6, counterexample: on the fixed-grammar text enclosing id 3, name
Accel, vendor Bosch, version 2, the parser emits one Device whose id field
(`DeviceId`) is the constant "1", not "3" as the claim states; the numeric
sensor id lands in the serial field. -/
theorem sensor_record_id_counterexample :
    sensorBlock popenC6 =
      [⟨"1", "Accel", "Bosch", "2", "hybris", "hybris", 2, "3"⟩] ∧
    (⟨"1", "Accel", "Bosch", "2", "hybris", "hybris", 2, "3"⟩ : Device).deviceId
      ≠ "3" := by
  decide

/-- C6, amended: applied to the single well-formed record text, the sensor
parser yields exactly one match (3, Accel, Bosch, 2) and exactly one Device
with id "1", name "Accel", vendor "Bosch", version "2" and serial "3" (the
captured numeric id is stored as the serial, the id field is the constant
"1"). -/
theorem sensor_parse_single_record :
    findall sensorTextC6 = [⟨"3", "Accel", "Bosch", "2"⟩] ∧
    sensorBlock popenC6 =
      [⟨"1", "Accel", "Bosch", "2", "hybris", "hybris", 2, "3"⟩] := by
  decide

/-- C7: the sensor probe tries ABI versions in the fixed order 1.0, 2.0,
2.1 and stops at the first non-empty output: when 1.0 is empty and 2.0 is
non-empty, only the versions 1.0 and 2.0 are invoked (2.1 never) and
exactly the records of the 2.0 output are parsed; when every version
yields empty output, no sensor Devices are produced. -/
theorem sensor_probe_first_success (popen : String → String) :
    (hasNonWS (popen (mkCommand "1.0")) = false →
     hasNonWS (popen (mkCommand "2.0")) = true →
       probeSensors popen sensor_hal "" =
         (popen (mkCommand "2.0"), ["1.0", "2.0"]) ∧
       sensorBlock popen =
         (findall (popen (mkCommand "2.0"))).map mkSensorDevice) ∧
    ((∀ v ∈ sensor_hal, hasNonWS (popen (mkCommand v)) = false) →
       sensorBlock popen = []) := by
  constructor
  · intro h1 h2
    have hp : probeSensors popen sensor_hal "" =
        (popen (mkCommand "2.0"), ["1.0", "2.0"]) := by
      simp [sensor_hal, probeSensors, h1, h2]
    refine ⟨hp, ?_⟩
    rw [sensorBlock, hp]
    simp [h2]
  · intro h
    have h1 := h "1.0" (by simp [sensor_hal])
    have h2 := h "2.0" (by simp [sensor_hal])
    have h3 := h "2.1" (by simp [sensor_hal])
    have hp : probeSensors popen sensor_hal "" =
        (popen (mkCommand "2.1"), ["1.0", "2.0", "2.1"]) := by
      simp [sensor_hal, probeSensors, h1, h2, h3]
    rw [sensorBlock, hp]
    simp [h3]

/-- Witness for C7: a subprocess empty at 1.0 and non-empty at 2.0 probes
exactly 1.0 then 2.0 and parses the 2.0 record; an always-empty
subprocess yields no devices. -/
theorem sensor_probe_first_success_witness :
    probeSensors popenC7 sensor_hal "" = (sensorTextC7, ["1.0", "2.0"]) ∧
    sensorBlock popenC7 =
      [⟨"1", "Gyro", "Invn", "5", "hybris", "hybris", 2, "7"⟩] ∧
    sensorBlock popenEmpty = [] := by
  have h := (sensor_probe_first_success popenC7).1 (by decide) (by decide)
  have h3 := (sensor_probe_first_success popenEmpty).2 (by decide)
  exact ⟨h.1.trans (by decide), h.2.trans (by decide), h3⟩

/-- C8: whenever `set_props` completes, every Device in the resulting list
(bootloader, modem or sensor) carries the eight fields of the fixed record
shape — the `Device` structure itself, with absent data the empty string —
and its pluginTag and protocolTag are the constant "hybris" and its flags
the constant 2. -/
theorem device_descriptor_constant_fields (env : Env) (r : SPResult)
    (h : set_props env = Except.ok r) (d : Device) (hd : d ∈ r.devices) :
    d.plugin = "hybris" ∧ d.protocol = "hybris" ∧ d.flags = 2 := by
  rw [set_props] at h
  cases h1 : extract_prop env.fs "ro.product.vendor.manufacturer" with
  | error e => simp only [h1] at h; exact absurd h (by simp)
  | ok vendor =>
  simp only [h1] at h
  cases h2 : extract_prop env.fs "ro.product.vendor.name" with
  | error e => simp only [h2] at h; exact absurd h (by simp)
  | ok codename =>
  simp only [h2] at h
  cases h3 : (if env.fs.pathExists "/etc/machine-id"
              then env.fs.read "/etc/machine-id" else Except.ok "") with
  | error e => simp only [h3] at h; exact absurd h (by simp)
  | ok machineId =>
  simp only [h3] at h
  cases hb : bootBlock env.fs vendor with
  | error e => simp only [hb] at h; exact absurd h (by simp)
  | ok bootDevs =>
  simp only [hb] at h
  cases hm : modemBlock env.modems vendor with
  | error e => simp only [hm] at h; exact absurd h (by simp)
  | ok modemDevs =>
  simp only [hm] at h
  injection h with h
  subst h
  rcases List.mem_append.mp hd with hmem | hsens
  · rcases List.mem_append.mp hmem with hboot | hmodem
    · exact bootBlock_mem hb hboot
    · exact modemBlock_mem hm hmodem
  · exact sensorBlock_mem hsens

/-- Witness for C8 at the end-to-end scenario's bootloader device. -/
theorem device_descriptor_constant_fields_witness :
    devC2.plugin = "hybris" ∧ devC2.protocol = "hybris" ∧ devC2.flags = 2 :=
  device_descriptor_constant_fields envC2 spC2 (by decide) devC2 (by decide)

/-- C9, counterexample: on the matching line `mykey=a=b`, `extract_prop`
returns "a" — the text between the first and second `=` — not the whole
remainder "a=b" after the first `=` as the claim states. -/
theorem extract_prop_split_counterexample :
    extract_prop fsC9 "mykey" = Except.ok "a" ∧
    extract_prop fsC9 "mykey" ≠ Except.ok "a=b" := by
  decide

/-- C9, amended: for the first matching line of the chosen property file,
`extract_prop` returns the trimmed second field of the `=`-split of the
line (the text between the first and the second `=`), not everything after
the first `=`. -/
theorem extract_prop_second_field (fs : FS)
    (prop file content line k v : String) (rest : List String)
    (h1 : prop_files.find? fs.pathExists = some file)
    (h2 : fs.read file = Except.ok content)
    (h3 : (pyLines content).find? (fun l => pyStartsWith l prop) = some line)
    (h4 : pySplitOn '=' line = k :: v :: rest) :
    extract_prop fs prop = Except.ok (pyStrip v) := by
  simp only [extract_prop, h1, Option.getD_some, h2, extractFromContent, h3, h4]

/-- Witness for the amended C9 at the line `mykey=a=b`. -/
theorem extract_prop_second_field_witness :
    extract_prop fsC9 "mykey" = Except.ok "a" :=
  (extract_prop_second_field fsC9 "mykey" "/vendor/build.prop" "mykey=a=b\n"
    "mykey=a=b" "mykey" "a" ["b"] (by decide) (by decide) (by decide)
    (by decide)).trans (by decide)

/-- C10: every record the sensor-output pattern matches captures a
non-empty all-digit version group, so the `"1"` fallback for an empty
version capture is unreachable and the parsed Device's version equals
exactly the captured digits. -/
theorem sensor_version_digits (s : String) (m : SMatch) (h : m ∈ findall s) :
    m.ver ≠ "" ∧ m.ver.toList.all Char.isDigit = true ∧
      (mkSensorDevice m).version = m.ver := by
  obtain ⟨h1, h2⟩ := findallAux_ver _ _ m h
  exact ⟨h1, h2, by simp [mkSensorDevice, h1]⟩

/-- Witness for C10 at a record embedded in noise. -/
theorem sensor_version_digits_witness :
    (⟨"12", "Mag", "AKM", "4"⟩ : SMatch).ver ≠ "" ∧
    (⟨"12", "Mag", "AKM", "4"⟩ : SMatch).ver.toList.all Char.isDigit = true ∧
    (mkSensorDevice ⟨"12", "Mag", "AKM", "4"⟩).version =
      (⟨"12", "Mag", "AKM", "4"⟩ : SMatch).ver :=
  sensor_version_digits sensorTextC10 ⟨"12", "Mag", "AKM", "4"⟩ (by decide)

end Fwupd
